import Mathlib

/-!
Verification of the client-side transaction execution pipeline
(`pkg/client/channel/invoke/txnhandler.go`): the chain-of-responsibility
handlers (target resolution, endorsement, endorsement validation,
commit-and-confirm), the chain builders, and the two orchestration helpers.

The Go code is shallowly embedded: byte slices become `List Nat`,
pointers that may be nil become `Option`, fallible collaborator calls
return `Except`, and each handler becomes a step function on an explicit
`RequestContext` state that additionally emits a trace of collaborator
calls (so that ordering claims such as register-before-broadcast and
no-transactor-call claims are observable).  A nil-pointer dereference is
modelled as a `panicked` step result.
-/

namespace Invoke

/-- Go byte slices, as lists of byte values. -/
abbrev Bytes := List Nat

/-- Go bytes.Compare: lexicographic three-way comparison of byte slices. -/
def bytesCompare : Bytes → Bytes → Int
  | [], [] => 0
  | [], _ :: _ => -1
  | _ :: _, [] => 1
  | a :: as, b :: bs => if a < b then -1 else if b < a then 1 else bytesCompare as bs

/-- int32(common.Status_SUCCESS) from the fabric protos (value 200). -/
def statusSUCCESS : Int := 200

/-- pb.TxValidationCode_VALID from the fabric protos (value 0). -/
def txValidationCodeVALID : Int := 0

/-- Modelled from the spec: status group `status.ClientStatus` of the
status package (not in src); the exact numeric value is immaterial, the
three groups used here are distinct. -/
def ClientStatusGroup : Nat := 2

/-- Modelled from the spec: status group `status.EndorserClientStatus`. -/
def EndorserClientStatusGroup : Nat := 3

/-- Modelled from the spec: status group `status.EventServerStatus`. -/
def EventServerStatusGroup : Nat := 7

/-- Modelled from the spec: status code `status.NoPeersFound.ToInt32()`
of the status package (not in src), the "no peers provided" code. -/
def NoPeersFoundCode : Int := 6

/-- Modelled from the spec: status code `status.EndorsementMismatch.ToInt32()`
of the status package (not in src), the "endorsement mismatch" code. -/
def EndorsementMismatchCode : Int := 3

/-- Errors produced by the pipeline.  `statusErr` models `status.New`,
`fromProposalResponse` models `status.NewFromProposalResponse` (which,
per the spec, carries the offending endorser identity and the
peer-reported status and message), `withMessage` models
`errors.WithMessage`, `wrap` models `errors.Wrap`, and `errorNew` models
`errors.New`. -/
inductive FabError where
  | statusErr (group : Nat) (code : Int) (msg : String)
  | fromProposalResponse (endorser : String) (status : Int) (message : String)
  | withMessage (msg : String) (cause : FabError)
  | wrap (msg : String) (cause : FabError)
  | errorNew (msg : String)
deriving DecidableEq

/-- A peer (target / endorser); only its identity matters here. -/
structure Peer where
  url : String
deriving DecidableEq

/-- The peer filter predicate (fab.TargetFilter-style selection filter). -/
abbrev PeerFilter := Peer → Bool

/-- The inner pb response of a proposal response:
`r.ProposalResponse.GetResponse()` with its status, message and payload. -/
structure PbResponse where
  status : Int
  message : String
  payload : Bytes
deriving DecidableEq

/-- fab.TransactionProposalResponse: one endorser verdict. -/
structure TransactionProposalResponse where
  endorser : String
  response : PbResponse
deriving DecidableEq

/-- fab.TransactionProposal; `txnID` is its TxnID field. -/
structure TransactionProposal where
  txnID : String
  payload : Bytes
deriving DecidableEq

/-- fab.TransactionHeader, opaque to the pipeline. -/
structure TransactionHeader where
  txnID : String
deriving DecidableEq

/-- The final assembled transaction, opaque to the pipeline. -/
structure Transaction where
  id : String
deriving DecidableEq

/-- fab.TransactionResponse (the broadcast acknowledgement), opaque. -/
structure TransactionResponse where
  orderer : String
deriving DecidableEq

/-- fab.TransactionRequest, built by createAndSendTransaction. -/
structure TransactionRequest where
  proposal : Option TransactionProposal
  proposalResponses : List TransactionProposalResponse

/-- The event-subscription registration handle, opaque. -/
structure Registration where
  id : Nat
deriving DecidableEq

/-- The invoke.Request input: chaincode identifier, function, arguments,
transient map. -/
structure Request where
  chaincodeID : String
  fcn : String
  args : List Bytes
  transientMap : List (String × Bytes)

/-- fab.ChaincodeInvokeRequest as built inside
createAndSendTransactionProposal. -/
structure ChaincodeInvokeRequest where
  chaincodeID : String
  fcn : String
  args : List Bytes
  transientMap : List (String × Bytes)

/-- The request options carried by the invocation state (targets). -/
structure Opts where
  targets : List Peer

/-- The accumulated Response of the invocation state. -/
structure ResponseState where
  proposal : Option TransactionProposal
  transactionID : String
  responses : List TransactionProposalResponse
  payload : Bytes
  txValidationCode : Option Int

/-- The invocation state (invoke.RequestContext) threaded through the
chain: request, options, selection filter, accumulated response, and the
set-once terminal error. -/
structure RequestContext where
  request : Request
  opts : Opts
  selectionFilter : Option PeerFilter
  response : ResponseState
  error : Option FabError

/-- Resolution of the commit stage select race: either the tx-status
notification arrived first (with its validation code), or the
invocation's cancellation context fired first. -/
inductive WaitOutcome where
  | notification (code : Int)
  | ctxDone
deriving DecidableEq

/-- The external collaborators (ClientContext): the selection service,
the transactor, the txn library proposal constructor, and the event
service, each modelled as a pure oracle; `waitOutcome` resolves the
commit stage's select race. -/
structure ClientContext where
  getEndorsersForChaincode : List String → Option PeerFilter → Except FabError (List Peer)
  createTransactionHeader : Except FabError TransactionHeader
  createChaincodeInvokeProposal :
    TransactionHeader → ChaincodeInvokeRequest → Except FabError TransactionProposal
  sendTransactionProposal :
    TransactionProposal → List Peer → List TransactionProposalResponse × Option FabError
  createTransaction : TransactionRequest → Except FabError Transaction
  sendTransaction : Transaction → Except FabError TransactionResponse
  registerTxStatusEvent : String → Except FabError Registration
  waitOutcome : WaitOutcome

/-- The stages of the pipeline.  The four stages of txnhandler.go plus
the opaque signature-validation stage (not in src) and opaque
caller-supplied stages. -/
inductive Stage where
  | proposalProcessor
  | endorsement
  | endorsementValidation
  | signatureValidation
  | commitTx
  | custom (id : Nat)
deriving DecidableEq

/-- Observable collaborator calls emitted by the stages. -/
inductive Event where
  | stageRun (s : Stage)
  | selectionCall (ccIDs : List String) (withFilter : Bool)
  | createHeaderCall
  | createProposalCall
  | sendProposalCall
  | registerCall (txnID : String)
  | unregisterCall
  | createTransactionCall
  | sendTransactionCall
deriving DecidableEq

/-- Result of one stage execution: a Go panic, a return without
delegation, or a fall-through to the next handler. -/
inductive StepResult where
  | panicked (msg : String)
  | done (rc : RequestContext)
  | delegate (rc : RequestContext)

/-- One stage execution: the result, the events emitted before any
delegation, and the events emitted after return (deferred calls). -/
structure StepOut where
  res : StepResult
  pre : List Event
  post : List Event

/-- The loop body of EndorsementValidationHandler.validate: iterate with
index `n` and the reference payload `a1` (assigned at index 0); the
status check precedes the payload comparison for each response. -/
def validateLoop : List TransactionProposalResponse → Nat → Bytes → Option FabError
  | [], _, _ => none
  | r :: rest, n, a1 =>
    if r.response.status ≠ statusSUCCESS then
      some (.fromProposalResponse r.endorser r.response.status r.response.message)
    else if n = 0 then
      validateLoop rest (n + 1) r.response.payload
    else if bytesCompare a1 r.response.payload ≠ 0 then
      some (.statusErr EndorserClientStatusGroup EndorsementMismatchCode
        "ProposalResponsePayloads do not match")
    else
      validateLoop rest (n + 1) a1

/-- EndorsementValidationHandler.validate. -/
def validate (txProposalResponse : List TransactionProposalResponse) : Option FabError :=
  validateLoop txProposalResponse 0 []

/-- createAndSendTransactionProposal: build the ChaincodeInvokeRequest,
create the header, create the proposal, send it; the proposal is
returned (non-nil) exactly when its creation succeeded, together with
whatever responses and error the send produced. -/
def createAndSendTransactionProposal (cc : ClientContext) (chrequest : Request)
    (targets : List Peer) :
    (List TransactionProposalResponse × Option TransactionProposal × Option FabError) ×
      List Event :=
  let request : ChaincodeInvokeRequest :=
    { chaincodeID := chrequest.chaincodeID
      fcn := chrequest.fcn
      args := chrequest.args
      transientMap := chrequest.transientMap }
  match cc.createTransactionHeader with
  | .error e =>
      (([], none, some (.withMessage "creating transaction header failed" e)),
        [.createHeaderCall])
  | .ok txh =>
    match cc.createChaincodeInvokeProposal txh request with
    | .error e =>
        (([], none, some (.withMessage "creating transaction proposal failed" e)),
          [.createHeaderCall, .createProposalCall])
    | .ok proposal =>
      let sendRes := cc.sendTransactionProposal proposal targets
      ((sendRes.1, some proposal, sendRes.2),
        [.createHeaderCall, .createProposalCall, .sendProposalCall])

/-- createAndSendTransaction: build the TransactionRequest, create the
transaction, broadcast it. -/
def createAndSendTransaction (cc : ClientContext) (proposal : Option TransactionProposal)
    (resps : List TransactionProposalResponse) :
    Except FabError TransactionResponse × List Event :=
  let txnRequest : TransactionRequest := { proposal := proposal, proposalResponses := resps }
  match cc.createTransaction txnRequest with
  | .error e => (.error (.withMessage "CreateTransaction failed" e), [.createTransactionCall])
  | .ok tx =>
    match cc.sendTransaction tx with
    | .error e =>
        (.error (.withMessage "SendTransaction failed" e),
          [.createTransactionCall, .sendTransactionCall])
    | .ok tresp => (.ok tresp, [.createTransactionCall, .sendTransactionCall])

/-- ProposalProcessorHandler.Handle: with explicit targets, pass through
unchanged; with an empty target list, ask the selection service (with
the caller's filter when supplied) and either install the endorsers or
abort with the wrapped selection error. -/
def proposalProcessorStep (cc : ClientContext) (rc : RequestContext) : StepOut :=
  if rc.opts.targets.length = 0 then
    match cc.getEndorsersForChaincode [rc.request.chaincodeID] rc.selectionFilter with
    | .error e =>
        { res := .done { rc with error := some (.withMessage "Failed to get endorsing peers" e) }
          pre := [.stageRun .proposalProcessor,
            .selectionCall [rc.request.chaincodeID] rc.selectionFilter.isSome]
          post := [] }
    | .ok endorsers =>
        { res := .delegate { rc with opts := { rc.opts with targets := endorsers } }
          pre := [.stageRun .proposalProcessor,
            .selectionCall [rc.request.chaincodeID] rc.selectionFilter.isSome]
          post := [] }
  else
    { res := .delegate rc, pre := [.stageRun .proposalProcessor], post := [] }

/-- EndorsementHandler.Handle: abort on empty targets before touching
the transactor; otherwise createAndSendTransactionProposal, then record
`Response.Proposal` and `Response.TransactionID = proposal.TxnID`
before examining the send error — which dereferences a nil proposal
(panic) when header or proposal creation failed. -/
def endorsementStep (cc : ClientContext) (rc : RequestContext) : StepOut :=
  if rc.opts.targets.length = 0 then
    { res := .done { rc with
        error := some (.statusErr ClientStatusGroup NoPeersFoundCode "targets were not provided") }
      pre := [.stageRun .endorsement]
      post := [] }
  else
    let r := createAndSendTransactionProposal cc rc.request rc.opts.targets
    let resps := r.1.1
    let propOpt := r.1.2.1
    let errOpt := r.1.2.2
    match propOpt with
    | none =>
        { res := .panicked "runtime error: invalid memory address or nil pointer dereference"
          pre := .stageRun .endorsement :: r.2
          post := [] }
    | some proposal =>
      let rc1 := { rc with response := { rc.response with
        proposal := some proposal, transactionID := proposal.txnID } }
      match errOpt with
      | some e =>
          { res := .done { rc1 with error := some e }
            pre := .stageRun .endorsement :: r.2
            post := [] }
      | none =>
        let rc2 := { rc1 with response := { rc1.response with
          responses := resps
          payload := match resps with
            | [] => rc1.response.payload
            | r0 :: _ => r0.response.payload } }
        { res := .delegate rc2, pre := .stageRun .endorsement :: r.2, post := [] }

/-- EndorsementValidationHandler.Handle: validate the collected
responses; on failure set the wrapped terminal error and return,
otherwise delegate with the state untouched. -/
def endorsementValidationStep (_cc : ClientContext) (rc : RequestContext) : StepOut :=
  match validate rc.response.responses with
  | some err =>
      { res := .done { rc with error := some (.withMessage "endorsement validation failed" err) }
        pre := [.stageRun .endorsementValidation]
        post := [] }
  | none => { res := .delegate rc, pre := [.stageRun .endorsementValidation], post := [] }

/-- Modelled from the spec: the signature-validation stage
(NewSignatureValidationHandler is referenced by the builders but its
implementation is not in src).  The spec treats it as an opaque
pluggable stage with the same contract as the others; it is modelled
here as a pass-through stage. -/
def signatureValidationStep (_cc : ClientContext) (rc : RequestContext) : StepOut :=
  { res := .delegate rc, pre := [.stageRun .signatureValidation], post := [] }

/-- CommitTxHandler.Handle: register for the tx-status event of the
recorded transaction identifier (aborting on registration failure with
no unregister), defer the unregister, assemble and broadcast the
transaction, then wait on the race between the status notification and
the cancellation context. -/
def commitTxStep (cc : ClientContext) (rc : RequestContext) : StepOut :=
  let txnID := rc.response.transactionID
  match cc.registerTxStatusEvent txnID with
  | .error e =>
      { res := .done { rc with error := some (.wrap "error registering for TxStatus event" e) }
        pre := [.stageRun .commitTx, .registerCall txnID]
        post := [] }
  | .ok _reg =>
    let sendRes := createAndSendTransaction cc rc.response.proposal rc.response.responses
    match sendRes.1 with
    | .error e =>
        { res := .done { rc with error := some (.wrap "CreateAndSendTransaction failed" e) }
          pre := .stageRun .commitTx :: .registerCall txnID :: sendRes.2
          post := [.unregisterCall] }
    | .ok _ =>
      match cc.waitOutcome with
      | .notification code =>
        let rc1 := { rc with response := { rc.response with txValidationCode := some code } }
        if code ≠ txValidationCodeVALID then
          { res := .done { rc1 with error := some (.statusErr EventServerStatusGroup code
              "received invalid transaction") }
            pre := .stageRun .commitTx :: .registerCall txnID :: sendRes.2
            post := [.unregisterCall] }
        else
          { res := .delegate rc1
            pre := .stageRun .commitTx :: .registerCall txnID :: sendRes.2
            post := [.unregisterCall] }
      | .ctxDone =>
          { res := .done { rc with error := some (.errorNew "Execute didn\x27t receive block event") }
            pre := .stageRun .commitTx :: .registerCall txnID :: sendRes.2
            post := [.unregisterCall] }

/-- Modelled from the spec: a caller-supplied trailing stage is opaque
("consumes/produces the shared request/response state"); modelled as a
pass-through stage. -/
def customStep (_cc : ClientContext) (i : Nat) (rc : RequestContext) : StepOut :=
  { res := .delegate rc, pre := [.stageRun (.custom i)], post := [] }

/-- Dispatch a single stage. -/
def stageStep : Stage → ClientContext → RequestContext → StepOut
  | .proposalProcessor, cc, rc => proposalProcessorStep cc rc
  | .endorsement, cc, rc => endorsementStep cc rc
  | .endorsementValidation, cc, rc => endorsementValidationStep cc rc
  | .signatureValidation, cc, rc => signatureValidationStep cc rc
  | .commitTx, cc, rc => commitTxStep cc rc
  | .custom i, cc, rc => customStep cc i rc

/-- Outcome of a whole chain run: the final state, or a propagated Go
panic. -/
inductive Outcome where
  | ok (rc : RequestContext)
  | panicked (msg : String)

/-- A handler chain: each handler holds at most one next handler, so a
chain is the list of its stages in order (the empty list is the nil
next handler). -/
abbrev Chain := List Stage

/-- Run a chain: each stage runs, and on fall-through the rest of the
chain runs before the stage's deferred events fire. -/
def runChain (cc : ClientContext) : Chain → RequestContext → Outcome × List Event
  | [], rc => (.ok rc, [])
  | s :: rest, rc =>
    let so := stageStep s cc rc
    match so.res with
    | .panicked m => (.panicked m, so.pre ++ so.post)
    | .done rc1 => (.ok rc1, so.pre ++ so.post)
    | .delegate rc1 =>
      let r := runChain cc rest rc1
      (r.1, so.pre ++ r.2 ++ so.post)

/-- getNext: of the variadic trailing handlers only the first becomes
the continuation; none means the stage is terminal. -/
def getNext (next : List Chain) : Chain :=
  match next with
  | [] => []
  | h :: _ => h

/-- NewProposalProcessorHandler. -/
def NewProposalProcessorHandler (next : List Chain) : Chain :=
  .proposalProcessor :: getNext next

/-- NewEndorsementHandler. -/
def NewEndorsementHandler (next : List Chain) : Chain :=
  .endorsement :: getNext next

/-- NewEndorsementValidationHandler. -/
def NewEndorsementValidationHandler (next : List Chain) : Chain :=
  .endorsementValidation :: getNext next

/-- Modelled from the spec: NewSignatureValidationHandler (implementation
not in src; its call shape in the builders shows a variadic constructor
like the others). -/
def NewSignatureValidationHandler (next : List Chain) : Chain :=
  .signatureValidation :: getNext next

/-- NewCommitHandler. -/
def NewCommitHandler (next : List Chain) : Chain :=
  .commitTx :: getNext next

/-- NewQueryHandler: proposal processor → endorsement → endorsement
validation → signature validation → first trailing handler. -/
def NewQueryHandler (next : List Chain) : Chain :=
  NewProposalProcessorHandler
    [NewEndorsementHandler
      [NewEndorsementValidationHandler
        [NewSignatureValidationHandler next]]]

/-- NewExecuteHandler: as NewQueryHandler with the commit handler
chained after signature validation. -/
def NewExecuteHandler (next : List Chain) : Chain :=
  NewProposalProcessorHandler
    [NewEndorsementHandler
      [NewEndorsementValidationHandler
        [NewSignatureValidationHandler
          [NewCommitHandler next]]]]

/-- All events emitted by one execution of the commit stage, the
deferred ones included. -/
def commitEvents (cc : ClientContext) (rc : RequestContext) : List Event :=
  (commitTxStep cc rc).pre ++ (commitTxStep cc rc).post

/-- Specification-side helper: the reference payload is the payload of
the response at index 0 (empty for an empty list). -/
def referencePayload : List TransactionProposalResponse → Bytes
  | [] => []
  | r :: _ => r.response.payload

/-- Specification-side helper: a response offends, relative to the
reference payload, when its status is not success or its payload
differs from the reference. -/
def offendingB (ref : Bytes) (r : TransactionProposalResponse) : Bool :=
  decide (r.response.status ≠ statusSUCCESS) || decide (r.response.payload ≠ ref)

/-- Specification-side helper: the error the claim predicts for an
offending response — peer rejection when its status is bad (checked
first), otherwise the endorsement mismatch error. -/
def offenseError (r : TransactionProposalResponse) : FabError :=
  if r.response.status ≠ statusSUCCESS then
    .fromProposalResponse r.endorser r.response.status r.response.message
  else
    .statusErr EndorserClientStatusGroup EndorsementMismatchCode
      "ProposalResponsePayloads do not match"

/-! Concrete instances used to exercise the definitions. -/

/-- A concrete request. -/
def exRequest : Request :=
  { chaincodeID := "examplecc", fcn := "invoke", args := [[1, 2]], transientMap := [] }

/-- A concrete peer. -/
def exPeer1 : Peer := { url := "peer1:7051" }

/-- A second concrete peer. -/
def exPeer2 : Peer := { url := "peer2:7051" }

/-- The empty accumulated response. -/
def emptyResponse : ResponseState :=
  { proposal := none, transactionID := "", responses := [], payload := [],
    txValidationCode := none }

/-- An invocation state with no targets and no filter. -/
def rcEmpty : RequestContext :=
  { request := exRequest, opts := { targets := [] }, selectionFilter := none,
    response := emptyResponse, error := none }

/-- An invocation state with two explicit targets. -/
def rcTargets : RequestContext :=
  { rcEmpty with opts := { targets := [exPeer1, exPeer2] } }

/-- A successful endorsement response with the given payload. -/
def goodResp (endorser : String) (payload : Bytes) : TransactionProposalResponse :=
  { endorser := endorser, response := { status := statusSUCCESS, message := "", payload := payload } }

/-- A non-success endorsement response with the given status and message. -/
def badResp (endorser : String) (st : Int) (msg : String) : TransactionProposalResponse :=
  { endorser := endorser, response := { status := st, message := msg, payload := [] } }

/-- A concrete transaction header. -/
def exHeader : TransactionHeader := { txnID := "tx1" }

/-- A concrete proposal carrying the header's transaction identifier. -/
def exProposal : TransactionProposal := { txnID := "tx1", payload := [9] }

/-- A client context whose collaborators all succeed. -/
def ccBase : ClientContext :=
  { getEndorsersForChaincode := fun _ _ => .ok [exPeer1]
    createTransactionHeader := .ok exHeader
    createChaincodeInvokeProposal := fun th _ => .ok { txnID := th.txnID, payload := [9] }
    sendTransactionProposal := fun _ _ => ([goodResp "peer1" [7]], none)
    createTransaction := fun _ => .ok { id := "t1" }
    sendTransaction := fun _ => .ok { orderer := "orderer1" }
    registerTxStatusEvent := fun _ => .ok { id := 0 }
    waitOutcome := .notification txValidationCodeVALID }

/-- A client context whose selection service fails. -/
def ccSelFail : ClientContext :=
  { ccBase with getEndorsersForChaincode := fun _ _ => .error (.errorNew "no chaincode deployed") }

/-- A client context whose header creation fails. -/
def ccHeaderFail : ClientContext :=
  { ccBase with createTransactionHeader := .error (.errorNew "header boom") }

/-- A client context whose proposal send fails. -/
def ccSendFail : ClientContext :=
  { ccBase with sendTransactionProposal := fun _ _ => ([], some (.errorNew "send boom")) }

/-- A client context whose event registration fails. -/
def ccRegFail : ClientContext :=
  { ccBase with registerTxStatusEvent := fun _ => .error (.errorNew "register boom") }

/-- A client context whose wait ends by cancellation. -/
def ccCtxDone : ClientContext := { ccBase with waitOutcome := .ctxDone }

/-- Responses where the second endorser rejected the proposal. -/
def exBadStatusList : List TransactionProposalResponse :=
  [goodResp "peer1" [7], badResp "peer2" 500 "access denied"]

/-- Responses where the second endorser returned a different payload. -/
def exMismatchList : List TransactionProposalResponse :=
  [goodResp "peer1" [7], goodResp "peer2" [8]]

/-- A client context whose notification carries an invalid validation code. -/
def ccInvalid : ClientContext := { ccBase with waitOutcome := .notification 11 }

end Invoke

namespace Invoke

/-! Helper lemmas about the byte comparison and the validation loop. -/

/-- Go bytes.Compare returns zero exactly on equal byte slices. -/
theorem bytesCompare_eq_zero : ∀ a b : Bytes, bytesCompare a b = 0 ↔ a = b
  | [], [] => by simp [bytesCompare]
  | [], y :: ys => by simp [bytesCompare]
  | x :: xs, [] => by simp [bytesCompare]
  | x :: xs, y :: ys => by
    rcases Nat.lt_trichotomy x y with h | h | h
    · have hne : x ≠ y := Nat.ne_of_lt h
      simp [bytesCompare, h, hne]
    · subst h
      simp [bytesCompare, Nat.lt_irrefl, bytesCompare_eq_zero xs ys]
    · have hne : x ≠ y := (Nat.ne_of_lt h).symm
      simp [bytesCompare, h, Nat.lt_asymm h, hne]

/-- After index 0 the loop index no longer matters: with any positive
index, the loop succeeds exactly when every remaining response has
success status and the reference payload. -/
theorem validateLoop_pos_none (l : List TransactionProposalResponse) (a1 : Bytes) :
    ∀ n : Nat, (validateLoop l (n + 1) a1 = none ↔
      ∀ r ∈ l, r.response.status = statusSUCCESS ∧ r.response.payload = a1) := by
  induction l with
  | nil => intro n; simp [validateLoop]
  | cons r rest ih =>
    intro n
    by_cases hs : r.response.status = statusSUCCESS
    · by_cases hp : r.response.payload = a1
      · have hc : bytesCompare a1 a1 = 0 := (bytesCompare_eq_zero a1 a1).mpr rfl
        simp [validateLoop, hs, hc, hp, ih n.succ]
      · have hc : bytesCompare a1 r.response.payload ≠ 0 := by
          intro h0
          exact hp ((bytesCompare_eq_zero a1 r.response.payload).mp h0).symm
        simp [validateLoop, hs, hc, hp]
    · simp [validateLoop, hs]

/-- With any positive index, the loop aborts at the first offending
response with the predicted error. -/
theorem validateLoop_pos_offender :
    ∀ (l : List TransactionProposalResponse) (a1 : Bytes) (n k : Nat) (hk : k < l.length),
      offendingB a1 (l.get ⟨k, hk⟩) = true →
      (∀ j (hj : j < k), offendingB a1 (l.get ⟨j, Nat.lt_trans hj hk⟩) = false) →
      validateLoop l (n + 1) a1 = some (offenseError (l.get ⟨k, hk⟩))
  | [], _, _, k, hk => by simp at hk
  | r :: rest, a1, n, 0, hk => by
    intro hoff _
    by_cases hs : r.response.status = statusSUCCESS
    · have hp : r.response.payload ≠ a1 := by
        by_contra hp
        simp [List.get, offendingB, hs, hp] at hoff
      have hc : bytesCompare a1 r.response.payload ≠ 0 := fun h0 =>
        hp ((bytesCompare_eq_zero _ _).mp h0).symm
      simp [validateLoop, offenseError, hs, hc]
    · simp [validateLoop, offenseError, hs]
  | r :: rest, a1, n, k + 1, hk => by
    intro hoff hprev
    have h0 : offendingB a1 r = false := hprev 0 (Nat.succ_pos k)
    have hs : r.response.status = statusSUCCESS := by
      by_contra hs
      simp [offendingB, hs] at h0
    have hp : r.response.payload = a1 := by
      by_contra hp
      simp [offendingB, hp] at h0
    have hc : bytesCompare a1 r.response.payload = 0 :=
      (bytesCompare_eq_zero a1 r.response.payload).mpr hp.symm
    have hstep : validateLoop (r :: rest) (n + 1) a1 = validateLoop rest (n + 1 + 1) a1 := by
      simp [validateLoop, hs, hc]
    rw [hstep]
    exact validateLoop_pos_offender rest a1 (n + 1) k (Nat.lt_of_succ_lt_succ hk) hoff
      (fun j hj => hprev (j + 1) (Nat.succ_lt_succ hj))

/-- Claim C1: the endorsement-validation scan inspects the responses in
collection order, checking status before payload; it succeeds exactly
when every response has success status and the payload of the response
at index 0, and otherwise it aborts at the first offending response —
with the peer-rejection error carrying that endorser's identity and
peer-reported status and message when its status is not success, and
with the endorsement-mismatch error when its payload differs from the
reference. -/
theorem validate_first_offender_spec (rs : List TransactionProposalResponse) :
    (validate rs = none ↔
      ∀ r ∈ rs, r.response.status = statusSUCCESS ∧ r.response.payload = referencePayload rs)
  ∧ (∀ k (hk : k < rs.length),
      offendingB (referencePayload rs) (rs.get ⟨k, hk⟩) = true →
      (∀ j (hj : j < k),
        offendingB (referencePayload rs) (rs.get ⟨j, Nat.lt_trans hj hk⟩) = false) →
      validate rs = some (offenseError (rs.get ⟨k, hk⟩))) := by
  cases rs with
  | nil =>
    constructor
    · simp [validate, validateLoop]
    · intro k hk
      simp at hk
  | cons r0 rest =>
    have hval : validate (r0 :: rest) =
        if r0.response.status ≠ statusSUCCESS then
          some (.fromProposalResponse r0.endorser r0.response.status r0.response.message)
        else validateLoop rest 1 r0.response.payload := by
      by_cases hs : r0.response.status = statusSUCCESS <;>
        simp [validate, validateLoop, hs]
    have href : referencePayload (r0 :: rest) = r0.response.payload := rfl
    constructor
    · by_cases hs : r0.response.status = statusSUCCESS
      · rw [hval, if_neg (by simp [hs]), href]
        simp [List.forall_mem_cons, hs, validateLoop_pos_none rest r0.response.payload 0]
      · rw [hval, if_pos hs, href]
        simp [List.forall_mem_cons, hs]
    · intro k hk hoff hprev
      cases k with
      | zero =>
        have hs : ¬ r0.response.status = statusSUCCESS := by
          intro hs
          rw [href] at hoff
          simp [List.get, offendingB, hs] at hoff
        rw [hval, if_pos hs]
        simp [List.get, offenseError, hs]
      | succ k =>
        have h0 : offendingB r0.response.payload r0 = false := by
          rw [href] at hprev
          exact hprev 0 (Nat.succ_pos k)
        have hs : r0.response.status = statusSUCCESS := by
          by_contra hs
          simp [offendingB, hs] at h0
        rw [hval, if_neg (by simp [hs])]
        rw [href] at hoff hprev
        exact validateLoop_pos_offender rest r0.response.payload 0 k
          (Nat.lt_of_succ_lt_succ hk) hoff
          (fun j hj => hprev (j + 1) (Nat.succ_lt_succ hj))

/-- Witness for claim C1: on two responses where the second endorser
rejected with status 500 and message "access denied", validation aborts
with the peer-rejection error naming that endorser. -/
theorem validate_first_offender_spec_witness :
    validate exBadStatusList =
      some (FabError.fromProposalResponse "peer2" 500 "access denied") := by
  have h := (validate_first_offender_spec exBadStatusList).2 1 (by decide) (by decide)
    (by decide)
  simpa using h

/-- Claim C10: the empty response list passes validation, and an
invocation state that collected zero responses delegates through the
endorsement-validation stage unchanged. -/
theorem validate_empty_ok (cc : ClientContext) (rc : RequestContext)
    (h : rc.response.responses = []) :
    validate [] = none ∧
      (stageStep .endorsementValidation cc rc).res = .delegate rc := by
  refine ⟨rfl, ?_⟩
  simp [stageStep, endorsementValidationStep, h, validate, validateLoop]

/-- Witness for claim C10: the base context and the fresh invocation
state (zero responses) delegate through validation unchanged. -/
theorem validate_empty_ok_witness :
    validate [] = none ∧
      (stageStep .endorsementValidation ccBase rcEmpty).res = .delegate rcEmpty :=
  validate_empty_ok ccBase rcEmpty rfl

/-- Counterexample for claim C3: with no trailing stages the query
pipeline is not the bare three-stage chain the claim describes — the
builder chains the signature-validation stage after endorsement
validation. -/
theorem queryHandler_not_three_stages :
    NewQueryHandler [] ≠
      [Stage.proposalProcessor, Stage.endorsement, Stage.endorsementValidation] := by
  decide

/-- Claim C3 (amended): the query pipeline is target-resolution →
endorsement → endorsement-validation → signature-validation followed by
the first caller-supplied trailing chain; the execute pipeline chains
commit-and-confirm after signature validation and before the trailing
chain; of a variadic trailing list only the first element becomes the
continuation, and an empty list leaves the preceding stage terminal. -/
theorem pipeline_shapes (next : List Chain) :
    NewQueryHandler next =
      [Stage.proposalProcessor, Stage.endorsement, Stage.endorsementValidation,
        Stage.signatureValidation] ++ getNext next
  ∧ NewExecuteHandler next =
      [Stage.proposalProcessor, Stage.endorsement, Stage.endorsementValidation,
        Stage.signatureValidation, Stage.commitTx] ++ getNext next
  ∧ getNext [] = []
  ∧ ∀ (c : Chain) (cs : List Chain), getNext (c :: cs) = c :=
  ⟨rfl, rfl, rfl, fun _ _ => rfl⟩

/-- Claim C4: with an empty resolved target list the endorsement stage
sets the no-peers-found terminal error and stops: the trace is the bare
stage entry, so no transactor call is made and no later stage runs. -/
theorem endorsement_no_targets (cc : ClientContext) (rc : RequestContext) (rest : Chain)
    (h : rc.opts.targets = []) :
    runChain cc (Stage.endorsement :: rest) rc =
      (Outcome.ok { rc with error := some (.statusErr ClientStatusGroup NoPeersFoundCode
          "targets were not provided") },
        [Event.stageRun Stage.endorsement]) := by
  simp [runChain, stageStep, endorsementStep, h]

/-- Witness for claim C4: a fresh invocation state with no targets
aborts the endorsement stage without reaching the transactor. -/
theorem endorsement_no_targets_witness :
    runChain ccBase [Stage.endorsement] rcEmpty =
      (Outcome.ok { rcEmpty with error := some (.statusErr ClientStatusGroup NoPeersFoundCode
          "targets were not provided") },
        [Event.stageRun Stage.endorsement]) :=
  endorsement_no_targets ccBase rcEmpty [] rfl

/-- Claim C5: with explicit non-empty targets, target resolution
delegates with the state untouched and no selection call; with an empty
target list it calls the selection service exactly once with the
request's chaincode identifier and the caller's filter, and either
installs the returned endorsers or aborts with the wrapped selection
error, leaving the target list unwritten. -/
theorem proposalProcessor_spec (cc : ClientContext) (rc : RequestContext) :
    (rc.opts.targets ≠ [] →
      proposalProcessorStep cc rc =
        { res := .delegate rc, pre := [.stageRun .proposalProcessor], post := [] })
  ∧ (rc.opts.targets = [] →
      (∀ e, cc.getEndorsersForChaincode [rc.request.chaincodeID] rc.selectionFilter =
            .error e →
        proposalProcessorStep cc rc =
          { res := .done { rc with
              error := some (.withMessage "Failed to get endorsing peers" e) }
            pre := [.stageRun .proposalProcessor,
              .selectionCall [rc.request.chaincodeID] rc.selectionFilter.isSome]
            post := [] })
      ∧ (∀ ps, cc.getEndorsersForChaincode [rc.request.chaincodeID] rc.selectionFilter =
            .ok ps →
          proposalProcessorStep cc rc =
            { res := .delegate { rc with opts := { rc.opts with targets := ps } }
              pre := [.stageRun .proposalProcessor,
                .selectionCall [rc.request.chaincodeID] rc.selectionFilter.isSome]
              post := [] })) := by
  refine ⟨fun h => ?_, fun h => ⟨fun e he => ?_, fun ps hps => ?_⟩⟩
  · have hlen : ¬ rc.opts.targets.length = 0 := fun hc => h (List.length_eq_zero.mp hc)
    simp [proposalProcessorStep, hlen]
  · simp [proposalProcessorStep, h, he]
  · simp [proposalProcessorStep, h, hps]

/-- Witness for claim C5: with an empty target list and a failing
selection service, resolution aborts with the wrapped selection error
after exactly one selection call. -/
theorem proposalProcessor_spec_witness :
    proposalProcessorStep ccSelFail rcEmpty =
      { res := .done { rcEmpty with
          error := some (.withMessage "Failed to get endorsing peers"
            (.errorNew "no chaincode deployed")) }
        pre := [.stageRun .proposalProcessor,
          .selectionCall [rcEmpty.request.chaincodeID] rcEmpty.selectionFilter.isSome]
        post := [] } :=
  ((proposalProcessor_spec ccSelFail rcEmpty).2 rfl).1 (.errorNew "no chaincode deployed") rfl

/-- Claim C6: when header and proposal creation succeed but the
proposal send fails, the endorsement stage still records the proposal
and its transaction identifier in the response alongside the terminal
error. -/
theorem endorsement_records_proposal_on_send_failure (cc : ClientContext)
    (rc : RequestContext) (th : TransactionHeader) (p : TransactionProposal)
    (resps : List TransactionProposalResponse) (e : FabError)
    (hne : rc.opts.targets ≠ [])
    (hh : cc.createTransactionHeader = .ok th)
    (hp : cc.createChaincodeInvokeProposal th
      { chaincodeID := rc.request.chaincodeID, fcn := rc.request.fcn,
        args := rc.request.args, transientMap := rc.request.transientMap } = .ok p)
    (hs : cc.sendTransactionProposal p rc.opts.targets = (resps, some e)) :
    (stageStep .endorsement cc rc).res =
      .done { rc with
        response := { rc.response with proposal := some p, transactionID := p.txnID }
        error := some e } := by
  have hlen : ¬ rc.opts.targets.length = 0 := fun hc => hne (List.length_eq_zero.mp hc)
  simp [stageStep, endorsementStep, createAndSendTransactionProposal, hlen, hh, hp, hs]

/-- Witness for claim C6: a failing send still leaves the proposal and
transaction identifier in the response next to the error. -/
theorem endorsement_records_proposal_on_send_failure_witness :
    (stageStep .endorsement ccSendFail rcTargets).res =
      .done { rcTargets with
        response := { rcTargets.response with
          proposal := some { txnID := "tx1", payload := [9] }, transactionID := "tx1" }
        error := some (.errorNew "send boom") } :=
  endorsement_records_proposal_on_send_failure ccSendFail rcTargets exHeader
    { txnID := "tx1", payload := [9] } [] (.errorNew "send boom") (by decide) rfl rfl rfl

/-- Claim C7: after successful registration and broadcast, the commit
stage records a notified validation code; it aborts without delegating
when the code is not valid (carrying the code), delegates when the code
is valid, and aborts with the dedicated no-confirmation error when the
cancellation context fires first. -/
theorem commit_wait_outcomes (cc : ClientContext) (rc : RequestContext)
    (reg : Registration) (tresp : TransactionResponse)
    (hreg : cc.registerTxStatusEvent rc.response.transactionID = .ok reg)
    (hsend : (createAndSendTransaction cc rc.response.proposal
      rc.response.responses).1 = .ok tresp) :
    (∀ code, cc.waitOutcome = .notification code → code ≠ txValidationCodeVALID →
      (commitTxStep cc rc).res = .done { rc with
        response := { rc.response with txValidationCode := some code }
        error := some (.statusErr EventServerStatusGroup code
          "received invalid transaction") })
  ∧ (cc.waitOutcome = .notification txValidationCodeVALID →
      (commitTxStep cc rc).res = .delegate { rc with
        response := { rc.response with txValidationCode := some txValidationCodeVALID } })
  ∧ (cc.waitOutcome = .ctxDone →
      (commitTxStep cc rc).res = .done { rc with
        error := some (.errorNew "Execute didn\x27t receive block event") }) := by
  refine ⟨fun code hw hcode => ?_, fun hw => ?_, fun hw => ?_⟩
  · simp [commitTxStep, hreg, hsend, hw, hcode]
  · simp [commitTxStep, hreg, hsend, hw]
  · simp [commitTxStep, hreg, hsend, hw]

/-- Witness for claim C7: a notification carrying the invalid code 11
aborts the commit stage with the invalid-transaction error carrying
that code. -/
theorem commit_wait_outcomes_witness :
    (commitTxStep ccInvalid rcTargets).res = .done { rcTargets with
      response := { rcTargets.response with txValidationCode := some 11 }
      error := some (.statusErr EventServerStatusGroup 11 "received invalid transaction") } :=
  (commit_wait_outcomes ccInvalid rcTargets { id := 0 } { orderer := "orderer1" }
    rfl rfl).1 11 rfl (by decide)

/-- Claim C8: every stage preserves the short-circuit invariant — a
stage that delegates to its continuation leaves the terminal error
field exactly as it found it, so a stage that sets the error never
delegates and no stage overwrites or clears an earlier error on the
fall-through path. -/
theorem stage_delegate_preserves_error (s : Stage) (cc : ClientContext)
    (rc rc' : RequestContext)
    (h : (stageStep s cc rc).res = .delegate rc') :
    rc'.error = rc.error := by
  cases s <;>
    simp only [stageStep, proposalProcessorStep, endorsementStep, endorsementValidationStep,
      signatureValidationStep, commitTxStep, customStep] at h <;>
    (repeat' split at h) <;>
    (try cases h) <;>
    rfl

/-- Witness for claim C8: the validation stage delegates on the fresh
state and leaves the error field unchanged. -/
theorem stage_delegate_preserves_error_witness :
    rcEmpty.error = rcEmpty.error ∧
      (stageStep .endorsementValidation ccBase rcEmpty).res = .delegate rcEmpty :=
  ⟨stage_delegate_preserves_error .endorsementValidation ccBase rcEmpty rcEmpty rfl, rfl⟩

/-- Claim C9 (behavior of the code at the failing input): when header
creation fails no proposal exists, and the endorsement stage panics on
the nil proposal while recording the transaction identifier instead of
returning with the terminal error. -/
theorem endorsement_header_failure_panics (cc : ClientContext) (rc : RequestContext)
    (e : FabError) (hne : rc.opts.targets ≠ [])
    (hh : cc.createTransactionHeader = .error e) :
    (stageStep .endorsement cc rc).res =
      .panicked "runtime error: invalid memory address or nil pointer dereference" := by
  have hlen : ¬ rc.opts.targets.length = 0 := fun hc => hne (List.length_eq_zero.mp hc)
  simp [stageStep, endorsementStep, createAndSendTransactionProposal, hlen, hh]

/-- Witness for claim C9: the concrete failing-header context panics in
the endorsement stage. -/
theorem endorsement_header_failure_panics_witness :
    (stageStep .endorsement ccHeaderFail rcTargets).res =
      .panicked "runtime error: invalid memory address or nil pointer dereference" :=
  endorsement_header_failure_panics ccHeaderFail rcTargets (.errorNew "header boom")
    (by decide) rfl

/-- Claim C2: in every execution of the commit stage, the registration
for the transaction identifier precedes any broadcast call in the
stage's trace, and the registration is released exactly once on every
exit path — except when registration itself failed, in which case
nothing is released. -/
theorem commit_register_before_broadcast_unregister_once
    (cc : ClientContext) (rc : RequestContext) :
    (Event.sendTransactionCall ∈ commitEvents cc rc →
      Event.registerCall rc.response.transactionID ∈
        (commitEvents cc rc).takeWhile (fun ev => ev != Event.sendTransactionCall))
  ∧ (commitEvents cc rc).count Event.unregisterCall =
      (match cc.registerTxStatusEvent rc.response.transactionID with
        | .ok _ => 1
        | .error _ => 0) := by
  unfold commitEvents commitTxStep createAndSendTransaction
  cases hreg : cc.registerTxStatusEvent rc.response.transactionID with
  | error e =>
    simp only [hreg]
    refine ⟨fun hmem => absurd hmem (by simp), by simp [List.count_cons, beq_iff_eq]⟩
  | ok reg =>
    cases hct : cc.createTransaction
        { proposal := rc.response.proposal, proposalResponses := rc.response.responses } with
    | error e =>
      simp only [hreg, hct]
      refine ⟨fun _ => by simp [List.takeWhile_cons, bne_iff_ne],
        by simp [List.count_cons, beq_iff_eq]⟩
    | ok tx =>
      cases hst : cc.sendTransaction tx with
      | error e =>
        simp only [hreg, hct, hst]
        refine ⟨fun _ => by simp [List.takeWhile_cons, bne_iff_ne],
          by simp [List.count_cons, beq_iff_eq]⟩
      | ok tresp =>
        cases hw : cc.waitOutcome with
        | ctxDone =>
          simp only [hreg, hct, hst, hw]
          refine ⟨fun _ => by simp [List.takeWhile_cons, bne_iff_ne],
            by simp [List.count_cons, beq_iff_eq]⟩
        | notification code =>
          by_cases hcode : code = txValidationCodeVALID
          · simp only [hreg, hct, hst, hw, hcode]
            refine ⟨fun _ => by simp [List.takeWhile_cons, bne_iff_ne],
              by simp [List.count_cons, beq_iff_eq]⟩
          · simp only [hreg, hct, hst, hw]
            refine ⟨fun _ => by simp [hcode, List.takeWhile_cons, bne_iff_ne],
              by simp [hcode, List.count_cons, beq_iff_eq]⟩

/-- Witness for claim C2: on the base context the commit stage's trace
registers before the broadcast call and releases exactly once. -/
theorem commit_register_before_broadcast_unregister_once_witness :
    (Event.registerCall rcTargets.response.transactionID ∈
      (commitEvents ccBase rcTargets).takeWhile
        (fun ev => ev != Event.sendTransactionCall))
  ∧ (commitEvents ccBase rcTargets).count Event.unregisterCall = 1 :=
  ⟨(commit_register_before_broadcast_unregister_once ccBase rcTargets).1 (by decide),
    (commit_register_before_broadcast_unregister_once ccBase rcTargets).2⟩

end Invoke
